import Mathlib

/-!
Shallow embedding of the CAD verification pipeline
(`src/render_cad.py`, `src/generate_png_views.py`, `src/openai_verifier.py`,
`src/verify_helper.py`) and proofs about it.

Conventions of the embedding:
  * machine floats become real numbers (`ℝ`) for the camera mathematics;
  * Python strings become `String`;
  * effectful calls (filesystem, subprocess, network) are parameterised by
    an explicit environment recording their outcomes;
  * a Python function that may raise is embedded as `Except String α`,
    where `Except.error` carries the exception text.
-/

namespace CadMCP

open Real

/-! ## Definitions -/

/-! ### Vectors (numpy 3-vectors used by `render_cad.py`)

The camera mathematics is over `ℝ`, so this section is noncomputable;
witnesses for it are discharged by `simp`/`norm_num` rather than `decide`. -/

noncomputable section CameraMath

/-- A 3-component real vector, standing for a numpy array of length 3. -/
@[ext]
structure Vec3 where
  x : ℝ
  y : ℝ
  z : ℝ

/-- Componentwise subtraction (`target - eye`). -/
def Vec3.sub (a b : Vec3) : Vec3 := ⟨a.x - b.x, a.y - b.y, a.z - b.z⟩

/-- Dot product. -/
def Vec3.dot (a b : Vec3) : ℝ := a.x * b.x + a.y * b.y + a.z * b.z

/-- Cross product (`np.cross`). -/
def Vec3.cross (a b : Vec3) : Vec3 :=
  ⟨a.y * b.z - a.z * b.y, a.z * b.x - a.x * b.z, a.x * b.y - a.y * b.x⟩

/-- Squared Euclidean norm. -/
def Vec3.normSq (a : Vec3) : ℝ := a.dot a

/-- Euclidean norm (`np.linalg.norm`). -/
def Vec3.norm (a : Vec3) : ℝ := Real.sqrt a.normSq

/-- Componentwise division by a scalar (`v / np.linalg.norm(v)`). -/
def Vec3.div (a : Vec3) (c : ℝ) : Vec3 := ⟨a.x / c, a.y / c, a.z / c⟩

/-- Normalisation as written in the source: divide by the norm
(with no guard against a zero norm). -/
def Vec3.normalize (a : Vec3) : Vec3 := a.div a.norm

/-- Componentwise negation. -/
def Vec3.neg (a : Vec3) : Vec3 := ⟨-a.x, -a.y, -a.z⟩

/-! ### `look_at` and `spherical_pose` (`src/render_cad.py`, lines 55-111)

The source builds a 4x4 matrix whose columns 0,1,2 are the vectors
`right`, `up_corrected`, `-forward` and whose column 3 is `eye`.  We embed
the matrix as the record of those four columns. -/

/-- The camera frame produced by `look_at`: the three basis columns of the
4x4 transform plus the translation column. -/
structure Frame where
  right : Vec3
  up_corrected : Vec3
  negForward : Vec3
  eye : Vec3

/-- `look_at(eye, target, up)` from `render_cad.py`:
`forward = normalize(target - eye)`, `right = normalize(forward x up)`,
`up_corrected = normalize(right x forward)`; columns are
`right, up_corrected, -forward, eye`. -/
def look_at (eye target up : Vec3) : Frame :=
  let forward := (target.sub eye).normalize
  let right := (forward.cross up).normalize
  let up_corrected := (right.cross forward).normalize
  ⟨right, up_corrected, forward.neg, eye⟩

/-- The construction in `look_at` is well defined when none of its three
normalisations divides by a zero norm. -/
def look_at_welldefined (eye target up : Vec3) : Prop :=
  (target.sub eye).norm ≠ 0 ∧
  ((target.sub eye).normalize.cross up).norm ≠ 0 ∧
  (((target.sub eye).normalize.cross up).normalize.cross
    (target.sub eye).normalize).norm ≠ 0

/-- Degrees to radians (`np.deg2rad` / `math.radians`). -/
def deg2rad (d : ℝ) : ℝ := d * (π / 180)

/-- The eye position computed by `spherical_pose` (`render_cad.py`,
lines 99-107): `x = r cos φ sin θ`, `y = r sin φ`, `z = r cos φ cos θ`
with θ, φ in radians. -/
def spherical_eye (theta_deg phi_deg radius : ℝ) : Vec3 :=
  let theta := deg2rad theta_deg
  let phi := deg2rad phi_deg
  ⟨radius * Real.cos phi * Real.sin theta,
   radius * Real.sin phi,
   radius * Real.cos phi * Real.cos theta⟩

/-- The world-up vector used by `spherical_pose`: `np.array([0, 1, 0])`. -/
def worldUp : Vec3 := ⟨0, 1, 0⟩

/-- `spherical_pose(theta_deg, phi_deg, radius)` from `render_cad.py`:
look at the origin from the spherical eye position. -/
def spherical_pose (theta_deg phi_deg radius : ℝ) : Frame :=
  look_at (spherical_eye theta_deg phi_deg radius) ⟨0, 0, 0⟩ worldUp

/-- The camera position computed inside the Blender control script
(`src/generate_png_views.py`, lines 175-186), before the camera is aimed
at the origin: `theta_r = radians(theta)`, `phi_r = radians(90 - phi)`,
position `(r sin(phi_r) cos(theta_r), r sin(phi_r) sin(theta_r), r cos(phi_r))`. -/
def blenderCameraPos (theta phi radius : ℝ) : Vec3 :=
  let theta_r := deg2rad theta
  let phi_r := deg2rad (90 - phi)
  ⟨radius * Real.sin phi_r * Real.cos theta_r,
   radius * Real.sin phi_r * Real.sin theta_r,
   radius * Real.cos phi_r⟩

end CameraMath

/-! ### Model loader (`src/render_cad.py`, `load_cadquery_model`, lines 209-268)

A Python value is embedded by whether its dynamic type is `cq.Workplane`
(the recognized solid type); everything else is opaque.  The execution
namespace is a dict, embedded as an insertion-ordered association list
with distinct keys; `shown_objects` is the list of values the mocked
`show_object` accumulated, in call order. -/

/-- A dynamic Python value as seen by the loader: either a `cq.Workplane`
instance or any other value, tagged by an identity. -/
inductive PyVal where
  | workplane (id : Nat)
  | other (id : Nat)
deriving DecidableEq, Repr

/-- `isinstance(v, cq.Workplane)`. -/
def PyVal.isWorkplane : PyVal → Bool
  | .workplane _ => true
  | .other _ => false

/-- The loop over `shown_objects` (lines 249-252): return the first value
captured by `show_object` whose type is `cq.Workplane`. -/
def firstShownWorkplane : List PyVal → Option PyVal
  | [] => none
  | o :: rest => if o.isWorkplane then some o else firstShownWorkplane rest

/-- `result_candidates = ["result", "model", "part", "shape"]` (line 255). -/
def result_candidates : List String := ["result", "model", "part", "shape"]

/-- The loop over `result_candidates` (lines 257-260): for each candidate
name in order, if it is bound in the namespace to a `cq.Workplane`,
return that binding. -/
def findCandidate (ns : List (String × PyVal)) : List String → Option PyVal
  | [] => none
  | c :: rest =>
    match ns.lookup c with
    | some v => if v.isWorkplane then some v else findCandidate ns rest
    | none => findCandidate ns rest

/-- The final namespace scan (lines 263-266): the first binding, in
insertion order, whose value is a `cq.Workplane` and whose name does not
start with an underscore. -/
def findAnyWorkplane : List (String × PyVal) → Option PyVal
  | [] => none
  | (name, v) :: rest =>
    if v.isWorkplane && !(name.startsWith "_") then some v
    else findAnyWorkplane rest

/-- The exception text raised when no model is found (line 268). -/
def noModelMsg : String := "No CAD-Query Workplane object found in script"

/-- `load_cadquery_model` after successful script execution
(lines 248-268), as a function of the captured `shown_objects` and the
final execution namespace: publish capture first, then conventional
names, then the namespace scan, else the no-model exception. -/
def load_cadquery_model (shown : List PyVal) (ns : List (String × PyVal)) :
    Except String PyVal :=
  match firstShownWorkplane shown with
  | some o => .ok o
  | none =>
    match findCandidate ns result_candidates with
    | some v => .ok v
    | none =>
      match findAnyWorkplane ns with
      | some v => .ok v
      | none => .error noModelMsg

/-- Modelled from the spec of the loader (section 4.1): the earliest
published value whose dynamic type is a recognized solid. -/
def spec_firstPublished (shown : List PyVal) : Option PyVal :=
  shown.find? PyVal.isWorkplane

/-- Modelled from the spec of the loader: the first of the conventional
names `result`, `model`, `part`, `shape` (in that order) bound to a
recognized solid. -/
def spec_firstConventional (ns : List (String × PyVal)) : Option PyVal :=
  (result_candidates.filterMap
    (fun c => (ns.lookup c).filter PyVal.isWorkplane)).head?

/-- Modelled from the spec of the loader: the first non-underscore
namespace binding, in insertion order, holding a recognized solid. -/
def spec_firstNamespaceScan (ns : List (String × PyVal)) : Option PyVal :=
  ((ns.filter (fun p => p.2.isWorkplane && !(p.1.startsWith "_"))).map
    Prod.snd).head?

/-- Modelled from the spec of the loader: the full priority chain. -/
def spec_resolve (shown : List PyVal) (ns : List (String × PyVal)) :
    Option PyVal :=
  (spec_firstPublished shown).orElse fun _ =>
    (spec_firstConventional ns).orElse fun _ => spec_firstNamespaceScan ns

/-! ### Renderer result (`src/generate_png_views.py`, lines 228-256)

We embed the part of `generate_png_views_blender` after the Blender
subprocess returned successfully.  The filesystem is an oracle
`fs : String → Bool` telling which paths exist. -/

/-- The six view paths returned by the renderer (`PNGPaths`). -/
structure PNGPaths where
  front : String
  right : String
  top : String
  iso : String
  back_left : String
  bottom_right : String
deriving DecidableEq, Repr

/-- `output_dir / file` (pathlib `/` operator). -/
def pathJoin (dir file : String) : String := dir ++ "/" ++ file

/-- `expected_files` (lines 229-236): the six output paths
`output_dir / f"{base_name}_{view}.png"` in source order. -/
def expected_files (output_dir base_name : String) : List String :=
  [pathJoin output_dir (base_name ++ "_front.png"),
   pathJoin output_dir (base_name ++ "_right.png"),
   pathJoin output_dir (base_name ++ "_top.png"),
   pathJoin output_dir (base_name ++ "_iso.png"),
   pathJoin output_dir (base_name ++ "_back_left.png"),
   pathJoin output_dir (base_name ++ "_bottom_right.png")]

/-- The check loop (lines 238-241): for each expected file it only logs
`EXISTS`/`MISSING`; this is the full information it extracts. -/
def checkLog (fs : String → Bool) (output_dir base_name : String) :
    List (String × Bool) :=
  (expected_files output_dir base_name).map fun p => (p, fs p)

/-- The `PNGPaths` value built at lines 249-256: all six paths,
unconditionally. -/
def blenderPNGPaths (output_dir base_name : String) : PNGPaths :=
  ⟨pathJoin output_dir (base_name ++ "_front.png"),
   pathJoin output_dir (base_name ++ "_right.png"),
   pathJoin output_dir (base_name ++ "_top.png"),
   pathJoin output_dir (base_name ++ "_iso.png"),
   pathJoin output_dir (base_name ++ "_back_left.png"),
   pathJoin output_dir (base_name ++ "_bottom_right.png")⟩

/-- The six paths of a `PNGPaths`, in field order. -/
def PNGPaths.toList (p : PNGPaths) : List String :=
  [p.front, p.right, p.top, p.iso, p.back_left, p.bottom_right]

/-- The return value of `generate_png_views_blender` once the Blender
subprocess has exited with code 0 (lines 228-256): the check loop runs
(producing `checkLog`, which is only logged) and then the function
returns all six paths. -/
def generate_png_views_result (fs : String → Bool)
    (output_dir base_name : String) : Except String PNGPaths :=
  let _log := checkLog fs output_dir base_name
  .ok (blenderPNGPaths output_dir base_name)

/-- A concrete filesystem state in which every file exists except the
rendered top view of model `m` in directory `out`. -/
def missingTopFS : String → Bool := fun p => !(p == "out/m_top.png")

/-! ### Vision verifier (`src/openai_verifier.py`)

The base64 payload of an inlined image is abstracted as the path of the
file it was read from; the network call is an oracle producing the parsed
structured response. -/

/-- The pydantic response model (lines 15-19).  Note the `result` field is
a plain `str`; the PASS/FAIL restriction exists only in a comment. -/
structure StructuredVerificationResult where
  result : String
  analysis : String
deriving DecidableEq, Repr

/-- `VerificationResult` (`src/types.py` / `src/generate_png_views.py`):
the verdict returned by the pipeline. -/
structure VerificationResult where
  status : String
  reasoning : String
  criteria : String
deriving DecidableEq, Repr

/-- One entry of the multimodal request content: a text block or an
inlined image (identified by the source file path; the base64 encoding
is abstracted away). -/
inductive ContentItem where
  | text (s : String)
  | image_url (path : String)
deriving DecidableEq, Repr

/-- `png_files.model_dump().items()` (line 44): the six (view name, path)
pairs in field-declaration order. -/
def pngItems (p : PNGPaths) : List (String × String) :=
  [("front", p.front), ("right", p.right), ("top", p.top),
   ("iso", p.iso), ("back_left", p.back_left),
   ("bottom_right", p.bottom_right)]

/-- The `image_content` loop (lines 42-53): for each view in order, if the
file exists, append a text label and the inlined image; otherwise append
nothing. -/
def image_content (fs : String → Bool) (p : PNGPaths) : List ContentItem :=
  (pngItems p).foldl
    (fun acc vp =>
      if fs vp.2 then
        acc ++ [ContentItem.text ("View: " ++ vp.1), ContentItem.image_url vp.2]
      else acc)
    []

/-- Modelled from the claim wording for comparison with `image_content`:
each view contributes its label and image exactly when its file exists,
and a missing view contributes nothing. -/
def spec_imageContentOf (fs : String → Bool) :
    List (String × String) → List ContentItem
  | [] => []
  | vp :: rest =>
    (if fs vp.2 then
      [ContentItem.text ("View: " ++ vp.1), ContentItem.image_url vp.2]
     else []) ++ spec_imageContentOf fs rest

/-- The final mapping in `verify_cad_with_vllm` (lines 80-87): the parsed
structured result becomes the verdict, with `criteria` echoed from the
input. -/
def verdictOfStructured (svr : StructuredVerificationResult)
    (criteria : String) : VerificationResult :=
  ⟨svr.result, svr.analysis, criteria⟩

/-- `verify_cad_with_vllm` (lines 28-87) as a function of the filesystem
oracle, the png paths, the criteria, and the parsed service response: the
request is built (skipping missing files) and the response is mapped to a
verdict.  No branch raises. -/
def verify_cad_with_vllm (fs : String → Bool) (p : PNGPaths)
    (criteria : String) (response : StructuredVerificationResult) :
    VerificationResult :=
  let _content := image_content fs p
  verdictOfStructured response criteria

/-! ### Orchestrator (`src/verify_helper.py`, `verify_model`) -/

/-- The outcome of the `subprocess.run` call inside `generate_stl`
(`src/render_cad.py`, lines 34-39): either an exit code, or a raised
exception (e.g. `TimeoutExpired`) with its text. -/
inductive SubprocessOutcome where
  | exits (code : Int)
  | raises (msg : String)
deriving DecidableEq, Repr

/-- `generate_stl` (`src/render_cad.py`, lines 17-52): returns a single
bool — `True` iff `cq-cli` exited with code 0; every exception is caught
and yields `False`. -/
def generate_stl : SubprocessOutcome → Bool
  | .exits code => code == 0
  | .raises _ => false

/-- The `TypeError` text Python produces for
`success, error_msg = b` when `b` is a bool. -/
def boolUnpackMsg : String := "cannot unpack non-iterable bool object"

/-- Python tuple-unpacking of a bool into two targets
(`success, error_msg = generate_stl(...)`, `verify_helper.py` line 47):
a bool is not iterable, so this raises `TypeError` for both `True` and
`False`. -/
def unpackPair (b : Bool) : Except String (Bool × String) :=
  match b with
  | true => .error boolUnpackMsg
  | false => .error boolUnpackMsg

/-- The outcomes of the external effects `verify_model` can trigger, in
pipeline order.  `fileExists` is `script_path.exists()`;
`suffixLowerIsPy` is `script_path.suffix.lower() == ".py"`; `stl` is the
`cq-cli` subprocess outcome inside `generate_stl`; `png` is the outcome
of `generate_png_views_blender` (its raised exception text or its
result); `verifier` is the outcome of the awaited
`verify_cad_with_vllm` call (its raised exception text or its verdict). -/
structure Env where
  fileExists : Bool
  suffixLowerIsPy : Bool
  stl : SubprocessOutcome
  png : Except String PNGPaths
  verifier : Except String VerificationResult
deriving Repr

/-- The verdict built by the `except` handler of the verifier stage
(`verify_helper.py`, lines 82-88). -/
def openai_failure_verdict (e criteria : String) : VerificationResult :=
  ⟨"FAIL", "Failed to verify with OpenAI: " ++ e, criteria⟩

/-- The verifier stage of the orchestrator (`verify_helper.py`,
lines 76-88): on success the verdict from `verify_cad_with_vllm` is
returned as is; on any exception the `except` handler returns
`openai_failure_verdict`. -/
def verifier_stage (verifier : Except String VerificationResult)
    (criteria : String) : VerificationResult :=
  match verifier with
  | .ok res => res
  | .error e => openai_failure_verdict e criteria

/-- `verify_model` (`src/verify_helper.py`, lines 14-88).  The return type
`Except String VerificationResult` separates an escaped exception
(`Except.error`, carrying the exception text) from a returned verdict
(`Except.ok`).  Lines 30-34 raise for a missing file or wrong extension.
The STL stage unpacks the single bool returned by `generate_stl` as a
pair (line 47), which raises `TypeError`; the surrounding
`except Exception` (lines 55-61) turns that into the FAIL verdict below,
so the `if not success` branch (lines 48-53) and the later stages are
only reached if the unpacking succeeds. -/
def verify_model (env : Env) (file_path criteria : String) :
    Except String VerificationResult :=
  if env.fileExists = false then
    .error ("Input file does not exist: " ++ file_path)
  else if env.suffixLowerIsPy = false then
    .error ("File must be a Python (.py) file: " ++ file_path)
  else
    match unpackPair (generate_stl env.stl) with
    | .error e =>
      .ok ⟨"FAIL", "Failed to generate STL file: " ++ e, criteria⟩
    | .ok (success, error_msg) =>
      if success = false then
        .ok ⟨"FAIL",
             if error_msg = "" then "Failed to generate STL file from CAD script"
             else "CadQuery compilation failed: " ++ error_msg,
             criteria⟩
      else
        match env.png with
        | .error e =>
          .ok ⟨"FAIL", "Failed to generate PNG views: " ++ e, criteria⟩
        | .ok _pngs => .ok (verifier_stage env.verifier criteria)

/-! ## Theorems -/

/-- C4: for every view entry (azimuth θ, elevation φ, radius r), the camera
position computed before the look-at orientation is exactly
`(r sin(π/2 - φ) cos θ, r sin(π/2 - φ) sin θ, r cos(π/2 - φ))` after
converting the angles to radians. -/
theorem blender_camera_position_formula (theta phi radius : ℝ) :
    blenderCameraPos theta phi radius =
      ⟨radius * Real.sin (π / 2 - deg2rad phi) * Real.cos (deg2rad theta),
       radius * Real.sin (π / 2 - deg2rad phi) * Real.sin (deg2rad theta),
       radius * Real.cos (π / 2 - deg2rad phi)⟩ := by
  have h : deg2rad (90 - phi) = π / 2 - deg2rad phi := by
    unfold deg2rad; ring
  simp only [blenderCameraPos, h]

/-- The squared norm is a sum of squares, hence nonnegative. -/
lemma Vec3.normSq_nonneg (v : Vec3) : 0 ≤ v.normSq := by
  have hx := mul_self_nonneg v.x
  have hy := mul_self_nonneg v.y
  have hz := mul_self_nonneg v.z
  simp only [Vec3.normSq, Vec3.dot]
  linarith

/-- A vector whose squared norm is `c ^ 2` with `0 ≤ c` has norm `c`. -/
lemma Vec3.norm_eq_of_normSq (v : Vec3) (c : ℝ) (hc : 0 ≤ c)
    (h : v.normSq = c ^ 2) : v.norm = c := by
  unfold Vec3.norm
  rw [h]
  exact Real.sqrt_sq hc

/-- Squared norm of a scalar division. -/
lemma Vec3.normSq_div (v : Vec3) (c : ℝ) :
    (v.div c).normSq = v.normSq / c ^ 2 := by
  have h : ∀ a : ℝ, a / c * (a / c) = a * a / c ^ 2 := fun a => by
    rw [div_mul_div_comm, sq]
  simp only [Vec3.div, Vec3.normSq, Vec3.dot, h]
  rw [div_add_div_same, div_add_div_same]

/-- Normalisation yields a unit vector whenever the norm divided by is
nonzero. -/
lemma Vec3.norm_normalize (v : Vec3) (h : v.norm ≠ 0) :
    v.normalize.norm = 1 := by
  have hnn : 0 ≤ v.normSq := Vec3.normSq_nonneg v
  have hsq : v.norm ^ 2 = v.normSq := Real.sq_sqrt hnn
  have h2 : v.normalize.normSq = 1 := by
    unfold Vec3.normalize
    rw [Vec3.normSq_div, ← hsq]
    exact div_self (pow_ne_zero 2 h)
  unfold Vec3.norm
  rw [h2]
  exact Real.sqrt_one

/-- Negation preserves the norm. -/
lemma Vec3.norm_neg (v : Vec3) : v.neg.norm = v.norm := by
  unfold Vec3.norm
  congr 1
  simp only [Vec3.neg, Vec3.normSq, Vec3.dot]
  ring

/-- C5 (counterexample): at azimuth 0, elevation 90 and radius 1 — a case
the claim explicitly includes — the `look_at` construction inside
`spherical_pose` normalises the cross product of a forward vector that is
parallel to the world-up vector, whose norm is zero: the construction is
not well defined there. -/
theorem look_at_singular_at_phi90_cex :
    (0 : ℝ) < 1 ∧
    ¬ look_at_welldefined (spherical_eye 0 90 1) ⟨0, 0, 0⟩ worldUp := by
  refine ⟨one_pos, fun h => ?_⟩
  have h90 : deg2rad 90 = π / 2 := by unfold deg2rad; ring
  have h0 : deg2rad 0 = 0 := by unfold deg2rad; ring
  have he : spherical_eye 0 90 1 = ⟨0, 1, 0⟩ := by
    unfold spherical_eye
    rw [h90, h0]
    simp
  rcases h with ⟨-, h2, -⟩
  apply h2
  rw [he]
  have hsub : Vec3.sub ⟨0, 0, 0⟩ ⟨0, 1, 0⟩ = ⟨0, -1, 0⟩ := by
    simp [Vec3.sub]
  rw [hsub]
  have hnsq : (⟨0, -1, 0⟩ : Vec3).normSq = 1 := by
    simp [Vec3.normSq, Vec3.dot]
  have hn : (⟨0, -1, 0⟩ : Vec3).norm = 1 := by
    unfold Vec3.norm
    rw [hnsq]
    exact Real.sqrt_one
  have hnorm : (⟨0, -1, 0⟩ : Vec3).normalize = ⟨0, -1, 0⟩ := by
    unfold Vec3.normalize
    rw [hn]
    simp [Vec3.div]
  rw [hnorm]
  have hcross : (⟨0, -1, 0⟩ : Vec3).cross worldUp = ⟨0, 0, 0⟩ := by
    simp [Vec3.cross, worldUp]
  rw [hcross]
  unfold Vec3.norm
  have hz : (⟨0, 0, 0⟩ : Vec3).normSq = 0 := by
    simp [Vec3.normSq, Vec3.dot]
  rw [hz]
  exact Real.sqrt_zero

/-- Core computation behind the amended C5, with `cp, sp` (resp.
`ct, st`) standing for the cosine and sine of the elevation (resp.
azimuth) in radians: away from `cp = 0` every normalisation in `look_at`
divides by a nonzero norm and the resulting basis is orthonormal. -/
lemma look_at_spherical_core (r cp sp ct st : ℝ) (F : Frame)
    (hr : 0 < r) (hcp : cp ≠ 0)
    (hphi : sp ^ 2 + cp ^ 2 = 1) (htheta : st ^ 2 + ct ^ 2 = 1)
    (hF : F = look_at ⟨r * cp * st, r * sp, r * cp * ct⟩ ⟨0, 0, 0⟩ worldUp) :
    look_at_welldefined ⟨r * cp * st, r * sp, r * cp * ct⟩ ⟨0, 0, 0⟩ worldUp ∧
    F.right.dot F.up_corrected = 0 ∧
    F.right.dot F.negForward = 0 ∧
    F.up_corrected.dot F.negForward = 0 ∧
    F.right.norm = 1 ∧ F.up_corrected.norm = 1 ∧ F.negForward.norm = 1 := by
  subst hF
  have hr0 : r ≠ 0 := ne_of_gt hr
  have habs : (0 : ℝ) < |cp| := abs_pos.mpr hcp
  have habs0 : |cp| ≠ 0 := ne_of_gt habs
  have hsq_abs : |cp| ^ 2 = cp ^ 2 := sq_abs cp
  have hsub : Vec3.sub ⟨0, 0, 0⟩ ⟨r * cp * st, r * sp, r * cp * ct⟩ =
      ⟨-(r * cp * st), -(r * sp), -(r * cp * ct)⟩ := by
    simp only [Vec3.sub, Vec3.mk.injEq]
    refine ⟨by ring, by ring, by ring⟩
  have hfnsq : (⟨-(r * cp * st), -(r * sp), -(r * cp * ct)⟩ : Vec3).normSq
      = r ^ 2 := by
    simp only [Vec3.normSq, Vec3.dot]
    linear_combination (r ^ 2 * cp ^ 2) * htheta + r ^ 2 * hphi
  have hfn : (⟨-(r * cp * st), -(r * sp), -(r * cp * ct)⟩ : Vec3).norm = r :=
    Vec3.norm_eq_of_normSq _ r hr.le hfnsq
  have hforward :
      (Vec3.sub ⟨0, 0, 0⟩ ⟨r * cp * st, r * sp, r * cp * ct⟩).normalize =
        ⟨-(cp * st), -sp, -(cp * ct)⟩ := by
    rw [hsub]
    unfold Vec3.normalize
    rw [hfn]
    simp only [Vec3.div, Vec3.mk.injEq]
    refine ⟨by field_simp; ring, by field_simp; ring, by field_simp; ring⟩
  have hrun : (⟨-(cp * st), -sp, -(cp * ct)⟩ : Vec3).cross worldUp =
      ⟨cp * ct, 0, -(cp * st)⟩ := by
    simp only [Vec3.cross, worldUp, Vec3.mk.injEq]
    refine ⟨by ring, by ring, by ring⟩
  have hrnsq : (⟨cp * ct, 0, -(cp * st)⟩ : Vec3).normSq = cp ^ 2 := by
    simp only [Vec3.normSq, Vec3.dot]
    linear_combination cp ^ 2 * htheta
  have hrn : (⟨cp * ct, 0, -(cp * st)⟩ : Vec3).norm = |cp| := by
    unfold Vec3.norm
    rw [hrnsq]
    exact Real.sqrt_sq_eq_abs cp
  have hright : (⟨cp * ct, 0, -(cp * st)⟩ : Vec3).normalize =
      ⟨cp * ct / |cp|, 0, -(cp * st) / |cp|⟩ := by
    unfold Vec3.normalize
    rw [hrn]
    simp [Vec3.div]
  have hupun : (⟨cp * ct / |cp|, 0, -(cp * st) / |cp|⟩ : Vec3).cross
      ⟨-(cp * st), -sp, -(cp * ct)⟩ =
      ⟨-(cp * st * sp) / |cp|, cp ^ 2 / |cp|, -(cp * ct * sp) / |cp|⟩ := by
    simp only [Vec3.cross, Vec3.mk.injEq]
    refine ⟨by ring, ?_, by ring⟩
    field_simp
    linear_combination cp ^ 2 * htheta
  have hupnsq :
      (⟨-(cp * st * sp) / |cp|, cp ^ 2 / |cp|,
        -(cp * ct * sp) / |cp|⟩ : Vec3).normSq = 1 := by
    simp only [Vec3.normSq, Vec3.dot]
    field_simp
    linear_combination (cp ^ 2 * sp ^ 2) * htheta + cp ^ 2 * hphi
  have hupn :
      (⟨-(cp * st * sp) / |cp|, cp ^ 2 / |cp|,
        -(cp * ct * sp) / |cp|⟩ : Vec3).norm = 1 := by
    unfold Vec3.norm
    rw [hupnsq]
    exact Real.sqrt_one
  have hup :
      (⟨-(cp * st * sp) / |cp|, cp ^ 2 / |cp|,
        -(cp * ct * sp) / |cp|⟩ : Vec3).normalize =
      ⟨-(cp * st * sp) / |cp|, cp ^ 2 / |cp|, -(cp * ct * sp) / |cp|⟩ := by
    unfold Vec3.normalize
    rw [hupn]
    simp [Vec3.div]
  have hneg : (⟨-(cp * st), -sp, -(cp * ct)⟩ : Vec3).neg =
      ⟨cp * st, sp, cp * ct⟩ := by
    simp only [Vec3.neg, Vec3.mk.injEq]
    refine ⟨by ring, by ring, by ring⟩
  refine ⟨⟨?_, ?_, ?_⟩, ?_, ?_, ?_, ?_, ?_, ?_⟩
  · rw [hsub, hfn]
    exact hr0
  · rw [hforward, hrun, hrn]
    exact habs0
  · rw [hforward, hrun, hright, hupun, hupn]
    exact one_ne_zero
  · simp only [look_at]
    rw [hforward, hrun, hright, hupun, hup]
    simp only [Vec3.dot]
    ring
  · simp only [look_at]
    rw [hforward, hrun, hright, hneg]
    simp only [Vec3.dot]
    ring
  · simp only [look_at]
    rw [hforward, hrun, hright, hupun, hup, hneg]
    simp only [Vec3.dot]
    linear_combination (-(cp ^ 2 * sp) / |cp|) * htheta
  · simp only [look_at]
    rw [hforward, hrun]
    apply Vec3.norm_normalize
    rw [hrn]
    exact habs0
  · simp only [look_at]
    rw [hforward, hrun, hright, hupun]
    apply Vec3.norm_normalize
    rw [hupn]
    exact one_ne_zero
  · simp only [look_at]
    rw [hforward, Vec3.norm_neg]
    refine Vec3.norm_eq_of_normSq _ 1 zero_le_one ?_
    simp only [Vec3.normSq, Vec3.dot]
    linear_combination cp ^ 2 * htheta + hphi

/-- C5 (amended): for every azimuth θ and radius r > 0, and every
elevation φ whose cosine in radians is nonzero (which excludes
φ = ±90° exactly, where the code divides by a zero norm — see the
counterexample), the look-at construction is well defined and the
resulting camera basis (right, up_corrected, -forward) is orthonormal:
pairwise dot products zero and all three norms one. -/
theorem spherical_pose_orthonormal (theta phi radius : ℝ)
    (hr : 0 < radius) (hphi : Real.cos (deg2rad phi) ≠ 0) :
    look_at_welldefined (spherical_eye theta phi radius) ⟨0, 0, 0⟩ worldUp ∧
    (spherical_pose theta phi radius).right.dot
      (spherical_pose theta phi radius).up_corrected = 0 ∧
    (spherical_pose theta phi radius).right.dot
      (spherical_pose theta phi radius).negForward = 0 ∧
    (spherical_pose theta phi radius).up_corrected.dot
      (spherical_pose theta phi radius).negForward = 0 ∧
    (spherical_pose theta phi radius).right.norm = 1 ∧
    (spherical_pose theta phi radius).up_corrected.norm = 1 ∧
    (spherical_pose theta phi radius).negForward.norm = 1 := by
  have h1 : Real.sin (deg2rad phi) ^ 2 + Real.cos (deg2rad phi) ^ 2 = 1 :=
    Real.sin_sq_add_cos_sq _
  have h2 : Real.sin (deg2rad theta) ^ 2 + Real.cos (deg2rad theta) ^ 2 = 1 :=
    Real.sin_sq_add_cos_sq _
  have he : spherical_eye theta phi radius =
      ⟨radius * Real.cos (deg2rad phi) * Real.sin (deg2rad theta),
       radius * Real.sin (deg2rad phi),
       radius * Real.cos (deg2rad phi) * Real.cos (deg2rad theta)⟩ := rfl
  have hmain := look_at_spherical_core radius (Real.cos (deg2rad phi))
    (Real.sin (deg2rad phi)) (Real.cos (deg2rad theta))
    (Real.sin (deg2rad theta)) (spherical_pose theta phi radius)
    hr hphi h1 h2 (by unfold spherical_pose; rw [he])
  rw [he]
  exact hmain

/-- C5 (witness): the amended theorem applied at azimuth 0, elevation 0,
radius 1. -/
theorem spherical_pose_orthonormal_witness :
    (0 : ℝ) < 1 ∧ Real.cos (deg2rad 0) ≠ 0 ∧
    (look_at_welldefined (spherical_eye 0 0 1) ⟨0, 0, 0⟩ worldUp ∧
     (spherical_pose 0 0 1).right.dot (spherical_pose 0 0 1).up_corrected = 0 ∧
     (spherical_pose 0 0 1).right.dot (spherical_pose 0 0 1).negForward = 0 ∧
     (spherical_pose 0 0 1).up_corrected.dot
       (spherical_pose 0 0 1).negForward = 0 ∧
     (spherical_pose 0 0 1).right.norm = 1 ∧
     (spherical_pose 0 0 1).up_corrected.norm = 1 ∧
     (spherical_pose 0 0 1).negForward.norm = 1) :=
  ⟨one_pos, by simp [deg2rad],
   spherical_pose_orthonormal 0 0 1 one_pos (by simp [deg2rad])⟩

/-- C1 (counterexample): called on a nonexistent path (respectively a
non-`.py` path), `verify_model` lets the `FileNotFoundError`
(respectively `ValueError`) escape instead of returning a verdict with
status ERROR. -/
theorem verify_model_invalid_input_cex :
    verify_model
        ⟨false, true, .exits 0, .ok (blenderPNGPaths "out" "m"),
         .ok ⟨"PASS", "r", "c"⟩⟩ "missing.py" "a cube"
      = Except.error "Input file does not exist: missing.py" ∧
    verify_model
        ⟨true, false, .exits 0, .ok (blenderPNGPaths "out" "m"),
         .ok ⟨"PASS", "r", "c"⟩⟩ "model.txt" "a cube"
      = Except.error "File must be a Python (.py) file: model.txt" := by
  exact ⟨rfl, rfl⟩

/-- C1 (amended): if the input path does not exist, `verify_model` raises
`FileNotFoundError`; if it exists but does not end in `.py`, it raises
`ValueError`.  In both cases the exception escapes (no verdict of any
status is returned), and no pipeline stage runs: the outcome is
independent of the STL, render and verifier stage outcomes. -/
theorem verify_model_invalid_input_raises (env env2 : Env) (fp c : String)
    (hex : env2.fileExists = env.fileExists)
    (hpy : env2.suffixLowerIsPy = env.suffixLowerIsPy)
    (hbad : env.fileExists = false ∨ env.suffixLowerIsPy = false) :
    verify_model env fp c =
      Except.error
        (if env.fileExists then "File must be a Python (.py) file: " ++ fp
         else "Input file does not exist: " ++ fp) ∧
    verify_model env2 fp c = verify_model env fp c := by
  rcases hbad with h | h
  · have h2 : env2.fileExists = false := hex.trans h
    exact ⟨by simp [verify_model, h], by simp [verify_model, h, h2]⟩
  · cases hfe : env.fileExists with
    | false =>
      have h2 : env2.fileExists = false := hex.trans hfe
      exact ⟨by simp [verify_model, hfe], by simp [verify_model, hfe, h2]⟩
    | true =>
      have h2 : env2.fileExists = true := hex.trans hfe
      have h3 : env2.suffixLowerIsPy = false := hpy.trans h
      exact ⟨by simp [verify_model, hfe, h],
             by simp [verify_model, hfe, h, h2, h3]⟩

/-- C1 (witness): the amended theorem applied to a concrete missing-file
environment, with a second environment differing in every stage outcome. -/
theorem verify_model_invalid_input_raises_witness :
    (⟨false, true, .exits 0, .ok (blenderPNGPaths "o" "m"),
      .ok ⟨"PASS", "r", "c"⟩⟩ : Env).fileExists
      = (⟨false, true, .raises "boom", .error "p", .error "v"⟩ : Env).fileExists ∧
    (⟨false, true, .exits 0, .ok (blenderPNGPaths "o" "m"),
      .ok ⟨"PASS", "r", "c"⟩⟩ : Env).suffixLowerIsPy
      = (⟨false, true, .raises "boom", .error "p", .error "v"⟩ : Env).suffixLowerIsPy ∧
    ((⟨false, true, .raises "boom", .error "p", .error "v"⟩ : Env).fileExists = false ∨
      (⟨false, true, .raises "boom", .error "p", .error "v"⟩ : Env).suffixLowerIsPy = false) ∧
    (verify_model ⟨false, true, .raises "boom", .error "p", .error "v"⟩
        "missing.py" "a cube" =
      Except.error
        (if (⟨false, true, .raises "boom", .error "p", .error "v"⟩ : Env).fileExists
         then "File must be a Python (.py) file: " ++ "missing.py"
         else "Input file does not exist: " ++ "missing.py") ∧
     verify_model ⟨false, true, .exits 0, .ok (blenderPNGPaths "o" "m"),
        .ok ⟨"PASS", "r", "c"⟩⟩ "missing.py" "a cube" =
      verify_model ⟨false, true, .raises "boom", .error "p", .error "v"⟩
        "missing.py" "a cube") :=
  ⟨rfl, rfl, Or.inl rfl,
   verify_model_invalid_input_raises
     ⟨false, true, .raises "boom", .error "p", .error "v"⟩
     ⟨false, true, .exits 0, .ok (blenderPNGPaths "o" "m"), .ok ⟨"PASS", "r", "c"⟩⟩
     "missing.py" "a cube" rfl rfl (Or.inl rfl)⟩

/-- C2 (counterexample): after a timeout in the verifier stage the handler
verdict has status FAIL, not ERROR. -/
theorem verifier_stage_timeout_cex :
    (verifier_stage (.error "Request timed out.") "a cube").status = "FAIL" ∧
    (verifier_stage (.error "Request timed out.") "a cube").status ≠ "ERROR" := by
  exact ⟨rfl, by decide⟩

/-- C2 (amended): when the vision-verifier stage fails after a successful
render, the orchestrator returns a verdict whose status is FAIL (not
ERROR) and whose reasoning names the verifier stage and wraps the
underlying cause text; the criteria string is preserved. -/
theorem verifier_stage_failure_is_fail (e c : String) :
    (verifier_stage (.error e) c).status = "FAIL" ∧
    (verifier_stage (.error e) c).status ≠ "ERROR" ∧
    (verifier_stage (.error e) c).reasoning =
      "Failed to verify with OpenAI: " ++ e ∧
    (verifier_stage (.error e) c).criteria = c :=
  ⟨rfl, show ("FAIL" : String) ≠ "ERROR" by decide, rfl, rfl⟩

set_option maxRecDepth 8192 in
/-- C3: for every existing `.py` input and criteria string, `verify_model`
returns a FAIL verdict whose reasoning starts with
"Failed to generate STL file:", because the bool returned by
`generate_stl` is unpacked as a pair, which raises `TypeError`; the
conclusion does not depend on the render or verifier outcomes, which are
therefore unreachable. -/
theorem verify_model_stl_unpack_fail (env : Env) (fp c : String)
    (h1 : env.fileExists = true) (h2 : env.suffixLowerIsPy = true) :
    verify_model env fp c =
      Except.ok ⟨"FAIL", "Failed to generate STL file: " ++ boolUnpackMsg, c⟩ ∧
    "Failed to generate STL file: " ++ boolUnpackMsg =
      "Failed to generate STL file:" ++ (" " ++ boolUnpackMsg) := by
  constructor
  · cases hb : generate_stl env.stl <;>
      simp [verify_model, h1, h2, unpackPair, hb]
  · rfl

/-- C3 (witness): the theorem applied to a concrete valid input. -/
theorem verify_model_stl_unpack_fail_witness :
    (⟨true, true, .exits 0, .ok (blenderPNGPaths "o" "m"),
      .ok ⟨"PASS", "r", "c"⟩⟩ : Env).fileExists = true ∧
    (⟨true, true, .exits 0, .ok (blenderPNGPaths "o" "m"),
      .ok ⟨"PASS", "r", "c"⟩⟩ : Env).suffixLowerIsPy = true ∧
    (verify_model ⟨true, true, .exits 0, .ok (blenderPNGPaths "o" "m"),
        .ok ⟨"PASS", "r", "c"⟩⟩ "box.py" "a cube" =
      Except.ok ⟨"FAIL", "Failed to generate STL file: " ++ boolUnpackMsg,
        "a cube"⟩ ∧
     "Failed to generate STL file: " ++ boolUnpackMsg =
       "Failed to generate STL file:" ++ (" " ++ boolUnpackMsg)) :=
  ⟨rfl, rfl,
   verify_model_stl_unpack_fail
     ⟨true, true, .exits 0, .ok (blenderPNGPaths "o" "m"), .ok ⟨"PASS", "r", "c"⟩⟩
     "box.py" "a cube" rfl rfl⟩

/-- The publish-capture loop returns exactly the first captured value of
`Workplane` type. -/
lemma firstShownWorkplane_eq_find (l : List PyVal) :
    firstShownWorkplane l = l.find? PyVal.isWorkplane := by
  induction l with
  | nil => rfl
  | cons o rest ih =>
    cases h : o.isWorkplane <;> simp [firstShownWorkplane, List.find?, h, ih]

/-- The candidate-name loop returns exactly the first conventional name
bound to a `Workplane`, in priority order. -/
lemma findCandidate_eq (ns : List (String × PyVal)) (cs : List String) :
    findCandidate ns cs =
      (cs.filterMap fun c => (ns.lookup c).filter PyVal.isWorkplane).head? := by
  induction cs with
  | nil => rfl
  | cons c rest ih =>
    cases h : ns.lookup c with
    | none => simp [findCandidate, h, ih]
    | some v =>
      cases hv : v.isWorkplane <;>
        simp [findCandidate, h, hv, ih, Option.filter]

/-- The namespace scan returns exactly the first non-underscore binding of
`Workplane` type, in insertion order. -/
lemma findAnyWorkplane_eq (ns : List (String × PyVal)) :
    findAnyWorkplane ns =
      ((ns.filter fun p => p.2.isWorkplane && !(p.1.startsWith "_")).map
        Prod.snd).head? := by
  induction ns with
  | nil => rfl
  | cons p rest ih =>
    obtain ⟨name, v⟩ := p
    cases h : (v.isWorkplane && !(name.startsWith "_")) <;>
      simp [findAnyWorkplane, h, ih]

/-- C6: the loader resolves the solid by the fixed priority chain —
earliest published `Workplane`, then the conventional names `result`,
`model`, `part`, `shape` in order, then the first non-underscore
namespace binding in insertion order — and errors otherwise; in
particular a published solid always wins over any namespace binding. -/
theorem load_cadquery_model_priority (shown : List PyVal)
    (ns : List (String × PyVal)) :
    load_cadquery_model shown ns =
      (spec_resolve shown ns).elim (Except.error noModelMsg) Except.ok := by
  unfold load_cadquery_model spec_resolve spec_firstPublished
    spec_firstConventional spec_firstNamespaceScan
  rw [firstShownWorkplane_eq_find, findCandidate_eq, findAnyWorkplane_eq]
  cases shown.find? PyVal.isWorkplane with
  | some o => simp [Option.orElse]
  | none =>
    cases h2 : (result_candidates.filterMap
        fun c => (ns.lookup c).filter PyVal.isWorkplane).head? with
    | some v => simp [Option.orElse, h2]
    | none =>
      cases h3 : ((ns.filter
          fun p => p.2.isWorkplane && !(p.1.startsWith "_")).map
            Prod.snd).head? with
      | some v => simp [Option.orElse, h2, h3]
      | none => simp [Option.orElse, h2, h3]

/-- A successful dict lookup yields one of the stored values. -/
lemma lookup_val_not_workplane (ns : List (String × PyVal))
    (h2 : ∀ p ∈ ns, (Prod.snd p).isWorkplane = false)
    (c : String) (v : PyVal) (h : ns.lookup c = some v) :
    v.isWorkplane = false := by
  induction ns with
  | nil => simp [List.lookup] at h
  | cons p rest ih =>
    obtain ⟨name, w⟩ := p
    by_cases hc : c = name
    · subst hc
      simp [List.lookup] at h
      exact h ▸ h2 (c, w) (List.mem_cons_self _ _)
    · have hbeq : (c == name) = false := by
        simp [hc]
      rw [List.lookup, hbeq] at h
      exact ih (fun p hp => h2 p (List.mem_cons_of_mem _ hp)) h

/-- C7: if the script executes successfully but no value captured by the
publish capability and no namespace binding has the recognized solid
type, the loader fails with the no-model error; it never returns without
a solid. -/
theorem load_cadquery_model_no_model (shown : List PyVal)
    (ns : List (String × PyVal))
    (h1 : ∀ v ∈ shown, v.isWorkplane = false)
    (h2 : ∀ p ∈ ns, (Prod.snd p).isWorkplane = false) :
    load_cadquery_model shown ns = Except.error noModelMsg := by
  have hs : firstShownWorkplane shown = none := by
    induction shown with
    | nil => rfl
    | cons o rest ih =>
      have ho := h1 o (List.mem_cons_self _ _)
      simp [firstShownWorkplane, ho]
      exact ih fun v hv => h1 v (List.mem_cons_of_mem _ hv)
  have hc : ∀ cs, findCandidate ns cs = none := by
    intro cs
    induction cs with
    | nil => rfl
    | cons c rest ih =>
      cases h : ns.lookup c with
      | none => simp [findCandidate, h, ih]
      | some v =>
        have hv := lookup_val_not_workplane ns h2 c v h
        simp [findCandidate, h, hv, ih]
  have ha : findAnyWorkplane ns = none := by
    clear hs hc
    induction ns with
    | nil => rfl
    | cons p rest ih =>
      obtain ⟨name, w⟩ := p
      have hw := h2 (name, w) (List.mem_cons_self _ _)
      simp [findAnyWorkplane, hw]
      exact ih fun p hp => h2 p (List.mem_cons_of_mem _ hp)
  simp [load_cadquery_model, hs, hc, ha]

/-- C7 (witness): the theorem applied to a concrete run that captured one
non-solid value and bound one non-solid name. -/
theorem load_cadquery_model_no_model_witness :
    (∀ v ∈ [PyVal.other 0], v.isWorkplane = false) ∧
    (∀ p ∈ [("x", PyVal.other 1)], (Prod.snd p).isWorkplane = false) ∧
    load_cadquery_model [PyVal.other 0] [("x", PyVal.other 1)] =
      Except.error noModelMsg :=
  ⟨by decide, by decide,
   load_cadquery_model_no_model [PyVal.other 0] [("x", PyVal.other 1)]
     (by decide) (by decide)⟩

/-- C8 (counterexample): with the top view missing on disk, the renderer
still returns a bare success listing all six paths, instead of a partial
outcome naming the missing view. -/
theorem renderer_bare_success_cex :
    missingTopFS (pathJoin "out" ("m" ++ "_top.png")) = false ∧
    generate_png_views_result missingTopFS "out" "m" =
      Except.ok (blenderPNGPaths "out" "m") ∧
    (blenderPNGPaths "out" "m").toList = expected_files "out" "m" := by
  refine ⟨by decide, rfl, rfl⟩

/-- C8 (amended): after the external renderer exits successfully, the
check loop only logs, per expected file, whether it exists (there is no
non-emptiness check), and the method returns a success listing all six
expected paths regardless of which files are missing: the result is
independent of the filesystem state. -/
theorem renderer_result_ignores_missing_files (fs fs2 : String → Bool)
    (d b : String) :
    generate_png_views_result fs d b = generate_png_views_result fs2 d b ∧
    generate_png_views_result fs d b = Except.ok (blenderPNGPaths d b) ∧
    (blenderPNGPaths d b).toList = expected_files d b ∧
    checkLog fs d b = (expected_files d b).map fun p => (p, fs p) :=
  ⟨rfl, rfl, rfl, rfl⟩

/-- C9 (counterexample): the `result` field of the structured response is
a plain string, not constrained to PASS/FAIL; a response carrying
"MAYBE" is representable and becomes the verdict status unchanged. -/
theorem structured_result_unconstrained_cex :
    (verdictOfStructured ⟨"MAYBE", "inconclusive"⟩ "a cube").status = "MAYBE" ∧
    (verdictOfStructured ⟨"MAYBE", "inconclusive"⟩ "a cube").status ≠ "PASS" ∧
    (verdictOfStructured ⟨"MAYBE", "inconclusive"⟩ "a cube").status ≠ "FAIL" :=
  ⟨rfl, by decide, by decide⟩

/-- C9 (amended): every verdict produced by the vision verifier has status
equal, verbatim, to the response result string (which the response type
leaves unconstrained), reasoning equal to the response analysis text and
criteria equal, character for character, to the criteria passed in. -/
theorem verdict_of_structured_mapping (svr : StructuredVerificationResult)
    (c : String) :
    (verdictOfStructured svr c).status = svr.result ∧
    (verdictOfStructured svr c).reasoning = svr.analysis ∧
    (verdictOfStructured svr c).criteria = c :=
  ⟨rfl, rfl, rfl⟩

/-- Unrolling the request-building fold: an accumulator prepends. -/
lemma image_content_foldl (fs : String → Bool) (acc : List ContentItem)
    (l : List (String × String)) :
    l.foldl
      (fun acc vp =>
        if fs vp.2 then
          acc ++ [ContentItem.text ("View: " ++ vp.1),
                  ContentItem.image_url vp.2]
        else acc)
      acc = acc ++ spec_imageContentOf fs l := by
  induction l generalizing acc with
  | nil => simp [spec_imageContentOf]
  | cons vp rest ih =>
    cases h : fs vp.2 <;>
      simp [spec_imageContentOf, h, ih, List.append_assoc]

/-- C10: the verifier includes, for each view in fixed order, its text
label and inlined image exactly when its file exists on disk — a missing
view contributes neither — and when every file is missing the request
carries zero images while the call still completes and returns the
mapped verdict without raising. -/
theorem image_content_skips_missing (fs : String → Bool) (p : PNGPaths)
    (c : String) (resp : StructuredVerificationResult) :
    image_content fs p = spec_imageContentOf fs (pngItems p) ∧
    image_content (fun _ => false) p = [] ∧
    verify_cad_with_vllm (fun _ => false) p c resp =
      verdictOfStructured resp c := by
  refine ⟨?_, rfl, rfl⟩
  unfold image_content
  rw [image_content_foldl]
  simp

end CadMCP
